import Mathlib

/-!
# GPIO LED character-device driver (`gpio_driver.c`)

A shallow embedding of the driver: the module state `led_module_st`, the
kernel services it calls (recorded as a trace of calls, their results being
supplied by an environment), the file operations `driver_open`,
`driver_close`, `driver_read`, `driver_write`, and the module hooks
`initmodule` and `exitmodule`.
-/

namespace GpioDriver

/-! ## Constants -/

/-- The macro `DEVICE_NAME`. -/
def DEVICE_NAME : String := "my_gpio_device"

/-- The macro `DRIVER_NAME`. -/
def DRIVER_NAME : String := "my_gpio_driver"

/-- The macro `DRIVER_CLASS`. -/
def DRIVER_CLASS : String := "my_gpio_class"

/-- The macro `GPIO_PIN`. -/
def GPIO_PIN : Nat := 20

/-- The macro `LED_ON`. -/
def LED_ON : Nat := 1

/-- The macro `LED_OFF`. -/
def LED_OFF : Nat := 0

/-- The errno value `EFAULT` of the kernel headers. -/
def EFAULT : Int := 14

/-! ## Machine integers -/

/-- Conversion of a `size_t` value to `ssize_t` (64-bit two's complement). -/
def ssize_of_size (n : Nat) : Int :=
  if n % 2 ^ 64 < 2 ^ 63 then ((n % 2 ^ 64 : Nat) : Int) else ((n % 2 ^ 64 : Nat) : Int) - 2 ^ 64

/-- Conversion of an `int` value to `size_t` (the usual arithmetic conversion
applied by `size > count`, and the argument conversion of `copy_to_user`). -/
def size_of_int (i : Int) : Nat := (i % 2 ^ 64).toNat

/-- Conversion of a `size_t` value to `int` (the assignment `size = count`). -/
def int_of_size (n : Nat) : Int :=
  if n % 2 ^ 32 < 2 ^ 31 then ((n % 2 ^ 32 : Nat) : Int) else ((n % 2 ^ 32 : Nat) : Int) - 2 ^ 32

/-! ## Kernel calls -/

/-- The resources of the acquisition chain of `initmodule`. -/
inductive Resource where
  | region
  | cls
  | node
  | cdev
  | pin
  deriving DecidableEq, Repr

/-- One call of a kernel service, with the arguments that the driver passes and,
where the driver looks at it, the value the kernel returned. Pointers are
numbers, `0` being `NULL`. -/
inductive KCall where
  | alloc_chrdev_region (ret : Int)
  | class_create (ptr : Nat)
  | device_create (cls : Nat) (dev : Nat) (ptr : Nat)
  | cdev_init
  | cdev_add (dev : Nat) (ret : Int)
  | gpio_request (pin : Nat) (ret : Int)
  | gpio_direction_output (pin : Nat) (value : Nat) (ret : Int)
  | gpio_set_value (pin : Nat) (value : Nat)
  | gpio_free (pin : Nat)
  | cdev_del
  | device_destroy (cls : Nat) (dev : Nat)
  | class_destroy (cls : Nat)
  | unregister_chrdev_region (dev : Nat) (count : Nat)
  | pr_info (msg : String)
  | pr_err (msg : String)
  deriving DecidableEq, Repr

/-- The resource that a call acquires, by the kind of the call. -/
def KCall.acquires : KCall → Option Resource
  | .alloc_chrdev_region _ => some .region
  | .class_create _ => some .cls
  | .device_create _ _ _ => some .node
  | .cdev_add _ _ => some .cdev
  | .gpio_request _ _ => some .pin
  | _ => none

/-- The resource that a call releases. -/
def KCall.releases : KCall → Option Resource
  | .unregister_chrdev_region _ _ => some .region
  | .class_destroy _ => some .cls
  | .device_destroy _ _ => some .node
  | .cdev_del => some .cdev
  | .gpio_free _ => some .pin
  | _ => none

/-- The level that a call applies to the GPIO line: `gpio_set_value`, and a
`gpio_direction_output` that returned `0`. -/
def KCall.level : KCall → Option Nat
  | .gpio_set_value _ v => some v
  | .gpio_direction_output _ v r => if r = 0 then some v else none
  | _ => none

/-- Whether a call touches the GPIO line at all. -/
def KCall.isGpio : KCall → Bool
  | .gpio_request _ _ => true
  | .gpio_direction_output _ _ _ => true
  | .gpio_set_value _ _ => true
  | .gpio_free _ => true
  | _ => false

/-- The resources released by a sequence of calls, in call order. -/
def releasedBy (t : List KCall) : List Resource := t.filterMap KCall.releases

/-- The resources whose acquisition call occurs in a sequence of calls, in call
order. -/
def acquiredBy (t : List KCall) : List Resource := t.filterMap KCall.acquires

/-- The level most recently applied to the GPIO line by a sequence of calls. -/
def lastLevel (t : List KCall) : Option Nat :=
  t.foldl (fun acc c => match c.level with
    | some v => some v
    | none => acc) none

/-! ## Module state -/

/-- The static structure `led_module_st`. The source gives the name
`my_gpio_dev` to both the `dev_t` and the `struct cdev` member; the second is
`my_gpio_cdev` here and records whether `cdev_init` has run on it. -/
structure LedModule where
  my_gpio_dev : Nat
  my_gpio_cdev : Bool
  my_gpio_class : Nat
  led_status : Nat
  deriving DecidableEq, Repr

/-- The module state together with the calls made to the kernel so far. -/
structure World where
  st : LedModule
  trace : List KCall
  deriving DecidableEq, Repr

/-- The world at module load: zero-initialised statics and no call made. -/
def World.boot : World :=
  { st := { my_gpio_dev := 0, my_gpio_cdev := false, my_gpio_class := 0, led_status := 0 },
    trace := [] }

/-- Record one kernel call. -/
def World.call (w : World) (c : KCall) : World :=
  { w with trace := w.trace ++ [c] }

/-! ## User memory -/

/-- A user-space destination buffer: `writable` bytes can be stored at its
address before the access faults. -/
structure UserDst where
  writable : Nat
  deriving DecidableEq, Repr

/-- The kernel service `copy_to_user (dst, src, n)`: returns the number of bytes
that could not be copied, and the bytes stored in user memory. -/
def copy_to_user (dst : UserDst) (src : List Char) (n : Nat) : Nat × List Char :=
  let copied := min n dst.writable
  (n - copied, src.take copied)

/-- The kernel service `copy_from_user (&write_value, buffer, 1)` on a user
buffer given by its readable bytes: returns the number of bytes that could not
be copied and the new content of `write_value`, which was `0` before. -/
def copy_from_user (buffer : List Char) : Nat × Char :=
  match buffer with
  | c :: _ => (0, c)
  | [] => (1, Char.ofNat 0)

/-! ## Output controller -/

/-- The function `led_driver_setled`. -/
def led_driver_setled (status : Nat) (w : World) : World :=
  let w1 : World := { w with st := { w.st with led_status := status } }
  w1.call (.gpio_set_value GPIO_PIN status)

/-! ## File operations -/

/-- The table `led_state` of `driver_read`. -/
def led_state : List (List Char) := [['O', 'F', 'F', '\n'], ['O', 'N', '\n']]

/-- The C library function `strlen` on a string given by its characters. -/
def strlen (s : List Char) : Nat := s.length

/-- What `driver_read` gives back: the return value, the bytes stored in the
caller's buffer, and the world after the call. -/
structure ReadResult where
  ret : Int
  user : List Char
  world : World
  deriving DecidableEq, Repr

/-- The function `driver_read`. The result is `none` when `led_status` indexes
outside the table `led_state`, where the C program has no defined behaviour.
The function writes no member of `led_module_st` and calls no traced kernel
service, so the world after the call is the world before it; the caller's
offset `offs` is neither read nor written. -/
def driver_read (w : World) (buffer : UserDst) (count : Nat) (_offs : Int) :
    Option ReadResult :=
  match led_state[w.st.led_status]? with
  | none => none
  | some msg =>
    let size : Int := (strlen msg : Int)
    let size : Int := if size_of_int size > count then int_of_size count else size
    let r := copy_to_user buffer msg (size_of_int size)
    if r.1 ≠ 0 then
      some { ret := -EFAULT, user := r.2, world := w }
    else
      some { ret := size, user := r.2, world := w }

/-- The function `driver_write`; `buffer` holds the readable bytes at the
caller's address. -/
def driver_write (w : World) (buffer : List Char) (count : Nat) (_offs : Int) :
    Int × World :=
  let r := copy_from_user buffer
  if r.1 ≠ 0 then
    (-EFAULT, w)
  else
    let write_value := r.2
    let w1 :=
      if write_value = '0' then
        (led_driver_setled LED_OFF w).call (.pr_info "LED OFF!\n")
      else if write_value = '1' then
        (led_driver_setled LED_ON w).call (.pr_info "LED ON!\n")
      else
        w.call (.pr_err "Invalide Input\n")
    (ssize_of_size count, w1)

/-- The function `driver_open`. -/
def driver_open (w : World) : Int × World :=
  (0, w.call (.pr_info ("Device opened: " ++ DEVICE_NAME ++ "!\n")))

/-- The function `driver_close`. -/
def driver_close (w : World) : Int × World :=
  (0, w.call (.pr_info ("Device closed: " ++ DEVICE_NAME ++ "\n")))

/-! ## Module initialisation and exit -/

/-- What the kernel answers to the calls of `initmodule`. -/
structure InitEnv where
  alloc_ret : Int
  alloc_dev : Nat
  class_ptr : Nat
  device_ptr : Nat
  cdev_add_ret : Int
  gpio_request_ret : Int
  gpio_direction_ret : Int
  deriving DecidableEq, Repr

/-- The code from the label `ClassError` on. -/
def ClassError (w : World) : Int × World :=
  (-1, w.call (.unregister_chrdev_region w.st.my_gpio_dev 1))

/-- The code from the label `FileError` on. -/
def FileError (w : World) : Int × World :=
  ClassError (w.call (.class_destroy w.st.my_gpio_class))

/-- The code from the label `AddError` on. -/
def AddError (w : World) : Int × World :=
  FileError (w.call (.device_destroy w.st.my_gpio_class w.st.my_gpio_dev))

/-- The code from the label `Gpio20Error` on. -/
def Gpio20Error (w : World) : Int × World :=
  AddError (w.call (.gpio_free GPIO_PIN))

/-- The function `initmodule`. -/
def initmodule (env : InitEnv) (w : World) : Int × World :=
  -- alloc_chrdev_region stores the device number only when it succeeds
  let w := w.call (.alloc_chrdev_region env.alloc_ret)
  if env.alloc_ret < 0 then
    (-1, w.call (.pr_err "Failed to allocate device number!\n"))
  else
  let w : World := { w with st := { w.st with my_gpio_dev := env.alloc_dev } }
  let w : World := { w with st := { w.st with my_gpio_class := env.class_ptr } }
  let w := w.call (.class_create env.class_ptr)
  if w.st.my_gpio_class = 0 then
    ClassError (w.call (.pr_err "Failed to create the character device class!\n"))
  else
  let w := w.call (.device_create w.st.my_gpio_class w.st.my_gpio_dev env.device_ptr)
  if env.device_ptr = 0 then
    FileError (w.call (.pr_err "Failed to create the character device file!\n"))
  else
  let w : World := { w with st := { w.st with my_gpio_cdev := true } }
  let w := w.call .cdev_init
  let w := w.call (.cdev_add w.st.my_gpio_dev env.cdev_add_ret)
  if env.cdev_add_ret = -1 then
    AddError (w.call (.pr_err "Failed to register the character device to /dev!\n"))
  else
  let w := w.call (.gpio_request GPIO_PIN env.gpio_request_ret)
  if env.gpio_request_ret ≠ 0 then
    AddError (w.call (.pr_err "unable to initialise gpio 20\n"))
  else
  let w := w.call (.gpio_direction_output GPIO_PIN 0 env.gpio_direction_ret)
  if env.gpio_direction_ret ≠ 0 then
    Gpio20Error (w.call (.pr_err "unable to set gpio 20 as output\n"))
  else
  (0, led_driver_setled LED_OFF w)

/-- The function `exitmodule`. -/
def exitmodule (w : World) : World :=
  let w := w.call (.gpio_set_value GPIO_PIN 0)
  let w := w.call (.gpio_free GPIO_PIN)
  let w := w.call .cdev_del
  let w := w.call (.device_destroy w.st.my_gpio_class w.st.my_gpio_dev)
  let w := w.call (.class_destroy w.st.my_gpio_class)
  w.call (.unregister_chrdev_region w.st.my_gpio_dev 1)

/-! ## Reachable states -/

/-- The worlds reachable from a run of `initmodule` that returned `0`, by any
sequence of `driver_open`, `driver_close`, `driver_read` and `driver_write`
calls. -/
inductive Reachable : World → Prop where
  | init (env : InitEnv) (w0 : World) :
      (initmodule env w0).1 = 0 → Reachable (initmodule env w0).2
  | opened (w : World) : Reachable w → Reachable (driver_open w).2
  | closed (w : World) : Reachable w → Reachable (driver_close w).2
  | read (w : World) (buffer : UserDst) (count : Nat) (offs : Int) (r : ReadResult) :
      Reachable w → driver_read w buffer count offs = some r → Reachable r.world
  | written (w : World) (buffer : List Char) (count : Nat) (offs : Int) :
      Reachable w → Reachable (driver_write w buffer count offs).2

/-- The worlds that follow a world by `driver_open`, `driver_close` and
`driver_read` calls only, with no `driver_write` among them. -/
inductive NoWriteSteps : World → World → Prop where
  | refl (w : World) : NoWriteSteps w w
  | opened (w w1 : World) : NoWriteSteps w w1 → NoWriteSteps w (driver_open w1).2
  | closed (w w1 : World) : NoWriteSteps w w1 → NoWriteSteps w (driver_close w1).2
  | read (w w1 : World) (buffer : UserDst) (count : Nat) (offs : Int) (r : ReadResult) :
      NoWriteSteps w w1 → driver_read w1 buffer count offs = some r → NoWriteSteps w r.world

/-- An environment in which every call of `initmodule` succeeds. -/
def okEnv : InitEnv :=
  { alloc_ret := 0, alloc_dev := 251658240, class_ptr := 4096, device_ptr := 8192,
    cdev_add_ret := 0, gpio_request_ret := 0, gpio_direction_ret := 0 }

/-! ## Derived definitions -/

/-- The world that `initmodule` leaves when every check passes. -/
def initDone (env : InitEnv) (w0 : World) : World :=
  { st := { my_gpio_dev := env.alloc_dev, my_gpio_cdev := true,
            my_gpio_class := env.class_ptr, led_status := LED_OFF },
    trace := w0.trace ++
      [.alloc_chrdev_region env.alloc_ret, .class_create env.class_ptr,
       .device_create env.class_ptr env.alloc_dev env.device_ptr, .cdev_init,
       .cdev_add env.alloc_dev env.cdev_add_ret, .gpio_request GPIO_PIN env.gpio_request_ret,
       .gpio_direction_output GPIO_PIN 0 env.gpio_direction_ret,
       .gpio_set_value GPIO_PIN LED_OFF] }

/-- The checks of `initmodule`, as the code makes them. -/
def checksPass (env : InitEnv) : Prop :=
  ¬ env.alloc_ret < 0 ∧ env.class_ptr ≠ 0 ∧ env.device_ptr ≠ 0 ∧ env.cdev_add_ret ≠ -1 ∧
    env.gpio_request_ret = 0 ∧ env.gpio_direction_ret = 0

instance (env : InitEnv) : Decidable (checksPass env) := by
  unfold checksPass; infer_instance

/-- The invariant of the reachable worlds: the status is one of the two levels
and it is the level last applied to the line. -/
def Inv (w : World) : Prop :=
  (w.st.led_status = LED_OFF ∨ w.st.led_status = LED_ON) ∧
    lastLevel w.trace = some w.st.led_status

/-- The world after a module load in which every call succeeded. -/
def readyWorld : World := (initmodule okEnv World.boot).2

/-- The world after the LED has been switched on by a one-byte write. -/
def litWorld : World := (driver_write readyWorld ['1'] 1 0).2

/-- The environment `okEnv` with `gpio_request` answering `-EBUSY`. -/
def requestFailsEnv : InitEnv := { okEnv with gpio_request_ret := -16 }

/-- The environment `okEnv` with `gpio_direction_output` answering `-EINVAL`. -/
def directionFailsEnv : InitEnv := { okEnv with gpio_direction_ret := -22 }

/-- The environment `okEnv` with `cdev_add` answering `-ENOMEM`. -/
def cdevAddFailsEnv : InitEnv := { okEnv with cdev_add_ret := -12 }

/-- The resources that a rollback after a failure at step `k` has to release, in
the words of the specification: those acquired in steps `1..k-1`, in reverse
order. Step 6, `gpio_direction_output`, acquires nothing. -/
def expectedRollback (k : Nat) : List Resource :=
  (([.region, .cls, .node, .cdev, .pin] : List Resource).take (k - 1)).reverse

/-! ## Basic facts -/

@[simp] theorem call_st (w : World) (c : KCall) : (w.call c).st = w.st := rfl

@[simp] theorem call_trace (w : World) (c : KCall) : (w.call c).trace = w.trace ++ [c] := rfl

@[simp] theorem setled_status (v : Nat) (w : World) :
    (led_driver_setled v w).st.led_status = v := rfl

@[simp] theorem setled_trace (v : Nat) (w : World) :
    (led_driver_setled v w).trace = w.trace ++ [.gpio_set_value GPIO_PIN v] := rfl

theorem lastLevel_snoc (t : List KCall) (c : KCall) :
    lastLevel (t ++ [c]) = match c.level with
      | some v => some v
      | none => lastLevel t := by
  simp [lastLevel, List.foldl_append]

theorem initmodule_of_checksPass (env : InitEnv) (w0 : World) (h : checksPass env) :
    initmodule env w0 = (0, initDone env w0) := by
  obtain ⟨h1, h2, h3, h4, h5, h6⟩ := h
  simp [initmodule, initDone, led_driver_setled, World.call, h1, h2, h3, h4, h5, h6]

theorem initmodule_ret (env : InitEnv) (w0 : World) :
    (initmodule env w0).1 = if checksPass env then 0 else -1 := by
  by_cases h : checksPass env
  · simp [initmodule_of_checksPass env w0 h, h]
  · simp only [h, if_false]
    unfold checksPass at h
    unfold initmodule
    simp only [call_st]
    split
    · rfl
    split
    · rfl
    split
    · rfl
    split
    · rfl
    split
    · rfl
    split
    · rfl
    exfalso
    apply h
    simp_all

theorem initmodule_zero (env : InitEnv) (w0 : World) (h : (initmodule env w0).1 = 0) :
    checksPass env ∧ (initmodule env w0).2 = initDone env w0 := by
  have hc : checksPass env := by
    by_contra hn
    rw [initmodule_ret, if_neg hn] at h
    exact absurd h (by decide)
  exact ⟨hc, by rw [initmodule_of_checksPass env w0 hc]⟩

/-- The resources released by a run of `initmodule`, by the first check that
fails: the `cdev` is in none of the lists. -/
theorem initmodule_released (env : InitEnv) (w0 : World) :
    releasedBy ((initmodule env w0).2.trace.drop w0.trace.length) =
      if env.alloc_ret < 0 then []
      else if env.class_ptr = 0 then [.region]
      else if env.device_ptr = 0 then [.cls, .region]
      else if env.cdev_add_ret = -1 then [.node, .cls, .region]
      else if env.gpio_request_ret ≠ 0 then [.node, .cls, .region]
      else if env.gpio_direction_ret ≠ 0 then [.pin, .node, .cls, .region]
      else [] := by
  unfold initmodule
  simp only [call_st]
  split_ifs <;>
    simp [Gpio20Error, AddError, FileError, ClassError, led_driver_setled, World.call,
      releasedBy, KCall.releases]

theorem size_of_int_natCast (n : Nat) (h : n < 2 ^ 64) : size_of_int (n : Int) = n := by
  unfold size_of_int
  omega

theorem int_of_size_small (n : Nat) (h : n < 2 ^ 31) : int_of_size n = (n : Int) := by
  unfold int_of_size
  have h1 : n % 2 ^ 32 = n := Nat.mod_eq_of_lt (by omega)
  rw [h1, if_pos h]

/-- The value of `size` after the clamp of `driver_read`, for a message that an
`int` can measure. -/
theorem clamp_size (len count : Nat) (hlen : len < 2 ^ 31) :
    (if size_of_int (len : Int) > count then int_of_size count else (len : Int))
      = ((min count len : Nat) : Int) := by
  rw [size_of_int_natCast len (by omega)]
  by_cases h : len > count
  · rw [if_pos h, int_of_size_small count (by omega), Nat.min_eq_left (by omega)]
  · rw [if_neg h, Nat.min_eq_right (by omega)]

/-- The function `driver_read` on a world whose status selects the message `msg`. -/
theorem driver_read_of_msg (w : World) (msg : List Char) (buffer : UserDst) (count : Nat)
    (offs : Int) (hm : led_state[w.st.led_status]? = some msg) (hlen : msg.length < 2 ^ 31) :
    driver_read w buffer count offs =
      some (if min count msg.length ≤ buffer.writable then
              { ret := ((min count msg.length : Nat) : Int),
                user := msg.take (min count msg.length), world := w }
            else
              { ret := -EFAULT, user := msg.take buffer.writable, world := w }) := by
  unfold driver_read
  rw [hm]
  simp only [strlen, clamp_size msg.length count hlen, copy_to_user,
    size_of_int_natCast (min count msg.length) (by omega)]
  by_cases hw : min count msg.length ≤ buffer.writable
  · have h0 : min count msg.length - min (min count msg.length) buffer.writable = 0 := by omega
    have h1 : min (min count msg.length) buffer.writable = min count msg.length := by omega
    simp [hw, h0, h1]
  · have h0 : min count msg.length - min (min count msg.length) buffer.writable ≠ 0 := by omega
    have h1 : min (min count msg.length) buffer.writable = buffer.writable := by omega
    rw [h1] at h0
    simp [hw, h0, h1]

theorem driver_read_world (w : World) (buffer : UserDst) (count : Nat) (offs : Int)
    (r : ReadResult) (h : driver_read w buffer count offs = some r) : r.world = w := by
  unfold driver_read at h
  cases hm : led_state[w.st.led_status]? with
  | none =>
    rw [hm] at h
    exact absurd h (by simp)
  | some msg =>
    rw [hm] at h
    simp only at h
    split_ifs at h <;> (injection h with h; rw [← h])

theorem inv_initDone (env : InitEnv) (w0 : World) : Inv (initDone env w0) := by
  refine ⟨Or.inl rfl, ?_⟩
  have h : (initDone env w0).trace =
      (w0.trace ++
        [.alloc_chrdev_region env.alloc_ret, .class_create env.class_ptr,
         .device_create env.class_ptr env.alloc_dev env.device_ptr, .cdev_init,
         .cdev_add env.alloc_dev env.cdev_add_ret, .gpio_request GPIO_PIN env.gpio_request_ret,
         .gpio_direction_output GPIO_PIN 0 env.gpio_direction_ret]) ++
        [.gpio_set_value GPIO_PIN LED_OFF] := by
    simp [initDone]
  rw [h, lastLevel_snoc]
  rfl

theorem inv_call (w : World) (c : KCall) (hc : c.level = none) (h : Inv w) : Inv (w.call c) := by
  refine ⟨h.1, ?_⟩
  rw [call_trace, lastLevel_snoc, hc]
  exact h.2

theorem inv_setled (w : World) (v : Nat) (hv : v = LED_OFF ∨ v = LED_ON) :
    Inv (led_driver_setled v w) := by
  refine ⟨hv, ?_⟩
  rw [setled_trace, lastLevel_snoc]
  rfl

/-- The function `driver_write` by cases on the caller's buffer. -/
theorem driver_write_nil (w : World) (count : Nat) (offs : Int) :
    driver_write w [] count offs = (-EFAULT, w) := rfl

theorem driver_write_zero (w : World) (rest : List Char) (count : Nat) (offs : Int) :
    driver_write w ('0' :: rest) count offs =
      (ssize_of_size count, (led_driver_setled LED_OFF w).call (.pr_info "LED OFF!\n")) := rfl

theorem driver_write_one (w : World) (rest : List Char) (count : Nat) (offs : Int) :
    driver_write w ('1' :: rest) count offs =
      (ssize_of_size count, (led_driver_setled LED_ON w).call (.pr_info "LED ON!\n")) := rfl

theorem driver_write_other (w : World) (c : Char) (rest : List Char) (count : Nat) (offs : Int)
    (h0 : c ≠ '0') (h1 : c ≠ '1') :
    driver_write w (c :: rest) count offs =
      (ssize_of_size count, w.call (.pr_err "Invalide Input\n")) := by
  simp [driver_write, copy_from_user, h0, h1]

theorem inv_driver_write (w : World) (buffer : List Char) (count : Nat) (offs : Int)
    (h : Inv w) : Inv (driver_write w buffer count offs).2 := by
  cases buffer with
  | nil => exact h
  | cons c rest =>
    by_cases h0 : c = '0'
    · subst h0
      rw [driver_write_zero]
      exact inv_call _ _ rfl (inv_setled w LED_OFF (Or.inl rfl))
    · by_cases h1 : c = '1'
      · subst h1
        rw [driver_write_one]
        exact inv_call _ _ rfl (inv_setled w LED_ON (Or.inr rfl))
      · rw [driver_write_other w c rest count offs h0 h1]
        exact inv_call _ _ rfl h

theorem reachable_inv (w : World) (h : Reachable w) : Inv w := by
  induction h with
  | init env w0 h0 =>
    rw [(initmodule_zero env w0 h0).2]
    exact inv_initDone env w0
  | opened w _ ih => exact inv_call _ _ rfl ih
  | closed w _ ih => exact inv_call _ _ rfl ih
  | read w buffer count offs r _ hr ih =>
    rw [driver_read_world w buffer count offs r hr]
    exact ih
  | written w buffer count offs _ ih => exact inv_driver_write w buffer count offs ih

theorem ssize_of_size_small (n : Nat) (h : n < 2 ^ 63) : ssize_of_size n = (n : Int) := by
  unfold ssize_of_size
  have h1 : n % 2 ^ 64 = n := Nat.mod_eq_of_lt (by omega)
  rw [h1, if_pos h]

/-- The return value of a write whose copy from the caller succeeded. -/
theorem driver_write_ret (w : World) (c : Char) (rest : List Char) (count : Nat) (offs : Int)
    (hcount : count < 2 ^ 63) : (driver_write w (c :: rest) count offs).1 = (count : Int) := by
  have hs := ssize_of_size_small count hcount
  by_cases h0 : c = '0'
  · subst h0
    rw [driver_write_zero]
    exact hs
  · by_cases h1 : c = '1'
    · subst h1
      rw [driver_write_one]
      exact hs
    · rw [driver_write_other w c rest count offs h0 h1]
      exact hs

theorem copy_to_user_ok_iff (dst : UserDst) (src : List Char) (n : Nat) :
    (copy_to_user dst src n).1 = 0 ↔ n ≤ dst.writable := by
  unfold copy_to_user
  simp only
  omega

/-- A read on a world whose status selects `msg`, seen through the success of the
copy to the caller. -/
theorem driver_read_spec (w : World) (msg : List Char) (buffer : UserDst) (count : Nat)
    (offs : Int) (hm : led_state[w.st.led_status]? = some msg) (hlen : msg.length < 2 ^ 31) :
    ∃ r, driver_read w buffer count offs = some r ∧ r.world = w ∧
      ((copy_to_user buffer msg (min count (strlen msg))).1 = 0 →
        r.ret = ((min count (strlen msg) : Nat) : Int) ∧
        r.user = msg.take (min count (strlen msg))) ∧
      ((copy_to_user buffer msg (min count (strlen msg))).1 ≠ 0 → r.ret = -EFAULT) := by
  rw [driver_read_of_msg w msg buffer count offs hm hlen]
  refine ⟨_, rfl, ?_, ?_, ?_⟩
  · split <;> rfl
  · intro hc
    rw [copy_to_user_ok_iff] at hc
    unfold strlen at hc ⊢
    rw [if_pos hc]
    exact ⟨rfl, rfl⟩
  · intro hc
    rw [Ne, copy_to_user_ok_iff] at hc
    unfold strlen at hc
    rw [if_neg hc]

theorem noWriteSteps_status (w w2 : World) (h : NoWriteSteps w w2) :
    w2.st.led_status = w.st.led_status := by
  induction h with
  | refl => rfl
  | opened w1 _ ih => exact ih
  | closed w1 _ ih => exact ih
  | read w1 buffer count offs r _ hr ih =>
    rw [driver_read_world w1 buffer count offs r hr]
    exact ih

theorem reachable_readyWorld : Reachable readyWorld :=
  Reachable.init okEnv World.boot (by decide)

theorem reachable_litWorld : Reachable litWorld :=
  Reachable.written readyWorld ['1'] 1 0 reachable_readyWorld

/-! ## Rollback of a failed initialisation -/

/-- C1, evaluated where it fails: when `gpio_request` is the first step to fail
(and likewise when `gpio_direction_output` is), `initmodule` returns `-1` after
releasing the device node, the class and the device-number region (and the pin
in the second case), but it never calls `cdev_del`, although the `cdev_add`
before it succeeded: the releases are not those of the resources acquired by
the earlier steps. -/
theorem rollback_omits_cdev_del :
    (initmodule requestFailsEnv World.boot).1 = -1 ∧
    acquiredBy (initmodule requestFailsEnv World.boot).2.trace
      = [.region, .cls, .node, .cdev, .pin] ∧
    releasedBy (initmodule requestFailsEnv World.boot).2.trace = [.node, .cls, .region] ∧
    expectedRollback 5 = [.cdev, .node, .cls, .region] ∧
    KCall.cdev_del ∉ (initmodule requestFailsEnv World.boot).2.trace ∧
    (initmodule directionFailsEnv World.boot).1 = -1 ∧
    releasedBy (initmodule directionFailsEnv World.boot).2.trace
      = [.pin, .node, .cls, .region] ∧
    expectedRollback 6 = [.pin, .cdev, .node, .cls, .region] ∧
    KCall.cdev_del ∉ (initmodule directionFailsEnv World.boot).2.trace := by
  decide

/-- C2, evaluated where it fails: when `cdev_add` answers `-ENOMEM` (`-12`), a
negative value other than `-1`, `initmodule` goes on to `gpio_request` and
`gpio_direction_output` and returns `0`. -/
theorem cdev_add_error_ignored :
    cdevAddFailsEnv.cdev_add_ret < 0 ∧
    (initmodule cdevAddFailsEnv World.boot).1 = 0 ∧
    (initmodule cdevAddFailsEnv World.boot).2.trace =
      [.alloc_chrdev_region 0, .class_create 4096, .device_create 4096 251658240 8192,
       .cdev_init, .cdev_add 251658240 (-12), .gpio_request GPIO_PIN 0,
       .gpio_direction_output GPIO_PIN 0 0, .gpio_set_value GPIO_PIN 0] := by
  decide

/-! ## Read after write -/

/-- C3 as stated fails: after a successful module load and a successful write of
`'1'`, a read of 3 bytes into a buffer that faults returns `-EFAULT`, not
`min (3, 3)`, and stores nothing. -/
theorem read_after_write_fault :
    (initmodule okEnv World.boot).1 = 0 ∧
    (driver_write (initmodule okEnv World.boot).2 ['1'] 1 0).1 = 1 ∧
    (driver_read (driver_write (initmodule okEnv World.boot).2 ['1'] 1 0).2 ⟨0⟩ 3 0).map
        (fun r => (r.ret, r.user)) = some (-EFAULT, []) ∧
    -EFAULT ≠ ((min 3 3 : Nat) : Int) := by
  decide

/-- C3, amended: after a write whose copy from the caller succeeded with first
byte `'1'`, from any world, and after any number of open, close and read calls
with no write among them, every read returns a result, whatever the offset:
when its copy to the caller succeeds it returns `min (3, count')` and stores
exactly the first `min (3, count')` bytes of `"ON\n"`, and when that copy fails
it returns `-EFAULT`; symmetrically for `'0'`, `4` and `"OFF\n"`. -/
theorem read_after_write (w : World) (buffer : List Char) (count : Nat) (offs : Int)
    (w2 : World) (hsteps : NoWriteSteps (driver_write w buffer count offs).2 w2)
    (dst : UserDst) (count' : Nat) (offs' : Int) :
    (copy_from_user buffer = (0, '1') →
      ∃ r, driver_read w2 dst count' offs' = some r ∧
        ((copy_to_user dst ['O', 'N', '\n'] (min 3 count')).1 = 0 →
          r.ret = ((min 3 count' : Nat) : Int) ∧
          r.user = ['O', 'N', '\n'].take (min 3 count')) ∧
        ((copy_to_user dst ['O', 'N', '\n'] (min 3 count')).1 ≠ 0 → r.ret = -EFAULT)) ∧
    (copy_from_user buffer = (0, '0') →
      ∃ r, driver_read w2 dst count' offs' = some r ∧
        ((copy_to_user dst ['O', 'F', 'F', '\n'] (min 4 count')).1 = 0 →
          r.ret = ((min 4 count' : Nat) : Int) ∧
          r.user = ['O', 'F', 'F', '\n'].take (min 4 count')) ∧
        ((copy_to_user dst ['O', 'F', 'F', '\n'] (min 4 count')).1 ≠ 0 →
          r.ret = -EFAULT)) := by
  have hst := noWriteSteps_status _ _ hsteps
  constructor
  · intro hb
    cases buffer with
    | nil => exact absurd hb (by simp [copy_from_user])
    | cons c rest =>
      have hc : c = '1' := by
        simp only [copy_from_user, Prod.mk.injEq, true_and] at hb
        exact hb
      subst hc
      rw [driver_write_one] at hst
      have hm : led_state[w2.st.led_status]? = some ['O', 'N', '\n'] := by
        rw [hst]
        rfl
      obtain ⟨r, hr, _, hok, hfail⟩ := driver_read_spec w2 _ dst count' offs' hm (by decide)
      have hmin : min count' (strlen ['O', 'N', '\n']) = min 3 count' := by
        simp only [strlen, List.length_cons, List.length_nil]
        omega
      rw [hmin] at hok hfail
      exact ⟨r, hr, hok, hfail⟩
  · intro hb
    cases buffer with
    | nil => exact absurd hb (by simp [copy_from_user])
    | cons c rest =>
      have hc : c = '0' := by
        simp only [copy_from_user, Prod.mk.injEq, true_and] at hb
        exact hb
      subst hc
      rw [driver_write_zero] at hst
      have hm : led_state[w2.st.led_status]? = some ['O', 'F', 'F', '\n'] := by
        rw [hst]
        rfl
      obtain ⟨r, hr, _, hok, hfail⟩ := driver_read_spec w2 _ dst count' offs' hm (by decide)
      have hmin : min count' (strlen ['O', 'F', 'F', '\n']) = min 4 count' := by
        simp only [strlen, List.length_cons, List.length_nil]
        omega
      rw [hmin] at hok hfail
      exact ⟨r, hr, hok, hfail⟩

/-- C3, amended, at a concrete run: module load, write of `"1"`, an open; then a
read of 2 bytes at offset 7 into a buffer of 3 writable bytes gives `"ON"`, and
a read of 3 bytes into a buffer with 1 writable byte gives `-EFAULT`. -/
theorem read_after_write_witness :
    NoWriteSteps (driver_write readyWorld ['1'] 1 0).2
      (driver_open (driver_write readyWorld ['1'] 1 0).2).2 ∧
    copy_from_user ['1'] = (0, '1') ∧
    (copy_to_user ⟨3⟩ ['O', 'N', '\n'] (min 3 2)).1 = 0 ∧
    (∃ r, driver_read (driver_open (driver_write readyWorld ['1'] 1 0).2).2 ⟨3⟩ 2 7 = some r ∧
      r.ret = 2 ∧ r.user = ['O', 'N']) ∧
    (copy_to_user ⟨1⟩ ['O', 'N', '\n'] (min 3 3)).1 ≠ 0 ∧
    (∃ r, driver_read (driver_open (driver_write readyWorld ['1'] 1 0).2).2 ⟨1⟩ 3 0 = some r ∧
      r.ret = -EFAULT) :=
  have hsteps : NoWriteSteps (driver_write readyWorld ['1'] 1 0).2
      (driver_open (driver_write readyWorld ['1'] 1 0).2).2 :=
    NoWriteSteps.opened _ _ (NoWriteSteps.refl _)
  ⟨hsteps, rfl, rfl,
    (let ⟨r, hr, h, _⟩ := (read_after_write readyWorld ['1'] 1 0 _ hsteps ⟨3⟩ 2 7).1 rfl
     ⟨r, hr, h rfl⟩),
    by decide,
    (let ⟨r, hr, _, h⟩ := (read_after_write readyWorld ['1'] 1 0 _ hsteps ⟨1⟩ 3 0).1 rfl
     ⟨r, hr, h (by decide)⟩)⟩

/-! ## Bounds of a read -/

/-- C4: in every world reachable from a successful `initmodule` by open, close,
read and write calls, `led_status` indexes inside the two-entry table
`led_state`, the selected message is `"ON\n"` or `"OFF\n"`, and for every
`count` the read returns a result; when its copy to the caller succeeds, the
returned value `n` satisfies `0 <= n <= count`, `n = min (count, strlen msg)`,
and exactly the first `n` bytes of the message are stored; for `count = 0` it
returns `0` and stores nothing. -/
theorem read_returns_clamped_status (w : World) (h : Reachable w) (buffer : UserDst)
    (count : Nat) (offs : Int) :
    w.st.led_status < led_state.length ∧
    ∃ msg r, led_state[w.st.led_status]? = some msg ∧
      (msg = ['O', 'N', '\n'] ∨ msg = ['O', 'F', 'F', '\n']) ∧
      driver_read w buffer count offs = some r ∧
      ((copy_to_user buffer msg (min count (strlen msg))).1 = 0 →
        0 ≤ r.ret ∧ r.ret ≤ (count : Int) ∧
        r.ret = ((min count (strlen msg) : Nat) : Int) ∧
        r.user = msg.take (min count (strlen msg))) ∧
      (count = 0 → r.ret = 0 ∧ r.user = []) := by
  have hinv := (reachable_inv w h).1
  have key : ∀ msg : List Char, led_state[w.st.led_status]? = some msg →
      msg.length < 2 ^ 31 →
      ∃ r, driver_read w buffer count offs = some r ∧
        ((copy_to_user buffer msg (min count (strlen msg))).1 = 0 →
          0 ≤ r.ret ∧ r.ret ≤ (count : Int) ∧
          r.ret = ((min count (strlen msg) : Nat) : Int) ∧
          r.user = msg.take (min count (strlen msg))) ∧
        (count = 0 → r.ret = 0 ∧ r.user = []) := by
    intro msg hm hlen
    obtain ⟨r, hr, _, hok, _⟩ := driver_read_spec w msg buffer count offs hm hlen
    refine ⟨r, hr, ?_, ?_⟩
    · intro hc
      obtain ⟨h1, h2⟩ := hok hc
      refine ⟨?_, ?_, h1, h2⟩
      · rw [h1]
        exact Int.ofNat_nonneg _
      · rw [h1]
        exact Int.ofNat_le.mpr (Nat.min_le_left _ _)
    · intro h0
      subst h0
      have hc : (copy_to_user buffer msg (min 0 (strlen msg))).1 = 0 := by
        rw [copy_to_user_ok_iff]
        simp
      obtain ⟨h1, h2⟩ := hok hc
      rw [h1, h2]
      simp
  rcases hinv with h0 | h1
  · have hm : led_state[w.st.led_status]? = some ['O', 'F', 'F', '\n'] := by
      rw [h0]
      rfl
    obtain ⟨r, hr⟩ := key _ hm (by decide)
    exact ⟨by rw [h0]; decide, _, r, hm, Or.inr rfl, hr⟩
  · have hm : led_state[w.st.led_status]? = some ['O', 'N', '\n'] := by
      rw [h1]
      rfl
    obtain ⟨r, hr⟩ := key _ hm (by decide)
    exact ⟨by rw [h1]; decide, _, r, hm, Or.inl rfl, hr⟩

/-- C4 at a concrete world: after module load and a write of `"1"`, a read of 2
bytes into a buffer of 8 writable bytes. -/
theorem read_returns_clamped_status_witness :
    Reachable litWorld ∧
    litWorld.st.led_status < led_state.length ∧
    ∃ msg r, led_state[litWorld.st.led_status]? = some msg ∧
      (msg = ['O', 'N', '\n'] ∨ msg = ['O', 'F', 'F', '\n']) ∧
      driver_read litWorld ⟨8⟩ 2 0 = some r ∧
      ((copy_to_user ⟨8⟩ msg (min 2 (strlen msg))).1 = 0 →
        0 ≤ r.ret ∧ r.ret ≤ ((2 : Nat) : Int) ∧
        r.ret = ((min 2 (strlen msg) : Nat) : Int) ∧
        r.user = msg.take (min 2 (strlen msg))) ∧
      ((2 : Nat) = 0 → r.ret = 0 ∧ r.user = []) :=
  ⟨reachable_litWorld, read_returns_clamped_status litWorld reachable_litWorld ⟨8⟩ 2 0⟩

/-! ## Writes -/

/-- C5 as stated fails: a write of `2 ^ 63` bytes whose first byte is `'x'`, with
the copy from the caller succeeding, returns `-(2 ^ 63)`, the value of `count`
converted to `ssize_t`, not `count`. -/
theorem write_other_byte_huge_count :
    'x' ≠ '0' ∧ 'x' ≠ '1' ∧
    (copy_from_user ['x']).1 = 0 ∧
    (driver_write readyWorld ['x'] (2 ^ 63) 0).1 = -(2 ^ 63) ∧
    (driver_write readyWorld ['x'] (2 ^ 63) 0).1 ≠ ((2 ^ 63 : Nat) : Int) := by
  decide

/-- C5, amended: for every stored status, every buffer whose first byte is
neither `'0'` nor `'1'` and every `count`, a write whose copy from the caller
succeeds leaves the module state (so `led_status`) unchanged and makes a single
call, the `pr_err` notice, so no call that sets the GPIO level; it returns
exactly `count` for every `count` below `2 ^ 63`, the counts that `ssize_t` can
hold. -/
theorem write_other_byte_is_noop (w : World) (c : Char) (rest : List Char) (count : Nat)
    (offs : Int) (h0 : c ≠ '0') (h1 : c ≠ '1') :
    (copy_from_user (c :: rest)).1 = 0 ∧
    (driver_write w (c :: rest) count offs).2.st = w.st ∧
    (driver_write w (c :: rest) count offs).2.trace = w.trace ++ [.pr_err "Invalide Input\n"] ∧
    (∀ k ∈ (driver_write w (c :: rest) count offs).2.trace.drop w.trace.length,
      k.level = none ∧ k.isGpio = false) ∧
    (count < 2 ^ 63 → (driver_write w (c :: rest) count offs).1 = (count : Int)) := by
  rw [driver_write_other w c rest count offs h0 h1]
  refine ⟨rfl, rfl, rfl, ?_, fun hcount => ssize_of_size_small count hcount⟩
  intro k hk
  simp only [call_trace, List.drop_left, List.mem_singleton] at hk
  subst hk
  exact ⟨rfl, rfl⟩

/-- C5, amended, at a concrete call: a 5-byte write of `"hello"` while the LED is
on returns 5. -/
theorem write_other_byte_is_noop_witness :
    'h' ≠ '0' ∧ 'h' ≠ '1' ∧ 5 < 2 ^ 63 ∧
    (copy_from_user ('h' :: ['e', 'l', 'l', 'o'])).1 = 0 ∧
    (driver_write litWorld ('h' :: ['e', 'l', 'l', 'o']) 5 0).2.st = litWorld.st ∧
    (driver_write litWorld ('h' :: ['e', 'l', 'l', 'o']) 5 0).2.trace
      = litWorld.trace ++ [.pr_err "Invalide Input\n"] ∧
    (∀ k ∈ (driver_write litWorld ('h' :: ['e', 'l', 'l', 'o']) 5 0).2.trace.drop
        litWorld.trace.length, k.level = none ∧ k.isGpio = false) ∧
    (driver_write litWorld ('h' :: ['e', 'l', 'l', 'o']) 5 0).1 = ((5 : Nat) : Int) :=
  have h := write_other_byte_is_noop litWorld 'h' ['e', 'l', 'l', 'o'] 5 0 (by decide)
    (by decide)
  ⟨by decide, by decide, by decide, h.1, h.2.1, h.2.2.1, h.2.2.2.1, h.2.2.2.2 (by decide)⟩

/-- C8 as stated fails: a write of `2 ^ 64 - 14` bytes whose copy from the caller
succeeds returns `-14`, which is `-EFAULT`, although no copy failed. -/
theorem write_efault_without_fault :
    (copy_from_user ['x']).1 = 0 ∧
    (driver_write readyWorld ['x'] (2 ^ 64 - 14) 0).1 = -EFAULT ∧
    (driver_write readyWorld ['x'] (2 ^ 64 - 14) 0).1 ≠ ((2 ^ 64 - 14 : Nat) : Int) := by
  decide

/-- C8, amended: for every `count`, a write whose copy of the input byte from the
caller fails returns `-EFAULT` and leaves the world unchanged (`led_status` as
before, no call made, so no GPIO call); for every `count` below `2 ^ 63`, the
counts that `ssize_t` can hold, `driver_write` returns `-EFAULT` exactly when
that copy fails, and in every other case, whatever the first byte, it returns
exactly `count`. -/
theorem write_return_value (w : World) (buffer : List Char) (count : Nat) (offs : Int) :
    ((copy_from_user buffer).1 ≠ 0 →
      (driver_write w buffer count offs).1 = -EFAULT ∧
      (driver_write w buffer count offs).2 = w) ∧
    (count < 2 ^ 63 →
      ((driver_write w buffer count offs).1 = -EFAULT ↔ (copy_from_user buffer).1 ≠ 0)) ∧
    (count < 2 ^ 63 → (copy_from_user buffer).1 = 0 →
      (driver_write w buffer count offs).1 = (count : Int)) := by
  cases buffer with
  | nil =>
    rw [driver_write_nil]
    refine ⟨fun _ => ⟨rfl, rfl⟩, fun _ => ⟨fun _ => by simp [copy_from_user], fun _ => rfl⟩, ?_⟩
    intro _ hc
    simp [copy_from_user] at hc
  | cons c rest =>
    refine ⟨?_, ?_, fun hcount _ => driver_write_ret w c rest count offs hcount⟩
    · intro hc
      simp [copy_from_user] at hc
    · intro hcount
      have hret := driver_write_ret w c rest count offs hcount
      constructor
      · intro he
        rw [hret] at he
        unfold EFAULT at he
        omega
      · intro hc
        simp [copy_from_user] at hc

/-- C8, amended, at two concrete calls while the LED is on: a write of 7 bytes
from a faulting buffer returns `-EFAULT` and changes nothing; a write of the 2
bytes `"0\n"` returns 2, which is not `-EFAULT`. -/
theorem write_return_value_witness :
    (copy_from_user []).1 ≠ 0 ∧ 7 < 2 ^ 63 ∧
    (driver_write litWorld [] 7 0).1 = -EFAULT ∧
    (driver_write litWorld [] 7 0).2 = litWorld ∧
    ((driver_write litWorld [] 7 0).1 = -EFAULT ↔ (copy_from_user []).1 ≠ 0) ∧
    (copy_from_user ['0', '\n']).1 = 0 ∧ 2 < 2 ^ 63 ∧
    (driver_write litWorld ['0', '\n'] 2 0).1 = ((2 : Nat) : Int) ∧
    ((driver_write litWorld ['0', '\n'] 2 0).1 = -EFAULT
      ↔ (copy_from_user ['0', '\n']).1 ≠ 0) :=
  have hf := write_return_value litWorld [] 7 0
  have hs := write_return_value litWorld ['0', '\n'] 2 0
  ⟨by decide, by decide, (hf.1 (by decide)).1, (hf.1 (by decide)).2, hf.2.1 (by decide),
    by decide, by decide, hs.2.2 (by decide) (by decide), hs.2.1 (by decide)⟩

/-- C10 as stated fails: a write of `2 ^ 63` bytes whose buffer starts with `'1'`
switches the LED on but returns `-(2 ^ 63)`, the value of `count` converted to
`ssize_t`, not `count`. -/
theorem write_one_huge_count :
    copy_from_user ['1'] = (0, '1') ∧
    (driver_write readyWorld ['1'] (2 ^ 63) 0).2.st.led_status = LED_ON ∧
    (driver_write readyWorld ['1'] (2 ^ 63) 0).1 = -(2 ^ 63) ∧
    (driver_write readyWorld ['1'] (2 ^ 63) 0).1 ≠ ((2 ^ 63 : Nat) : Int) := by
  decide

/-- C10, amended: the world after `driver_write` is the same for every `count`
and every offset and depends on the caller's buffer through its first byte
only; one byte is copied, for every `count`, `0` included; the new `led_status`
is `LED_ON` for `'1'`, `LED_OFF` for `'0'` and the old one otherwise; the call
returns `count` for every `count` below `2 ^ 63`, the counts that `ssize_t` can
hold; a zero-length write whose buffer starts with `'1'` switches the LED on
and returns `0`. -/
theorem write_ignores_count (w : World) (c : Char) (rest : List Char) (count : Nat)
    (offs : Int) :
    copy_from_user (c :: rest) = (0, c) ∧
    (∀ (count2 : Nat) (offs2 : Int) (rest2 : List Char),
      (driver_write w (c :: rest2) count2 offs2).2 = (driver_write w (c :: rest) count offs).2) ∧
    (driver_write w (c :: rest) count offs).2.st.led_status
      = (if c = '0' then LED_OFF else if c = '1' then LED_ON else w.st.led_status) ∧
    (count < 2 ^ 63 → (driver_write w (c :: rest) count offs).1 = (count : Int)) ∧
    (driver_write w ('1' :: rest) 0 offs).1 = 0 ∧
    (driver_write w ('1' :: rest) 0 offs).2.st.led_status = LED_ON := by
  refine ⟨rfl, ?_, ?_, fun hcount => driver_write_ret w c rest count offs hcount, ?_, ?_⟩
  · intro count2 offs2 rest2
    simp only [driver_write, copy_from_user, ne_eq, not_true_eq_false, if_false]
  · by_cases h0 : c = '0'
    · subst h0
      rw [driver_write_zero]
      rfl
    · by_cases h1 : c = '1'
      · subst h1
        rw [driver_write_one]
        rfl
      · rw [driver_write_other w c rest count offs h0 h1, if_neg h0, if_neg h1]
        rfl
  · rw [driver_write_one]
    exact ssize_of_size_small 0 (by omega)
  · rw [driver_write_one]
    rfl

/-- C10, amended, at two concrete calls while the LED is off: a 3-byte write of
`"1\n\n"` and a zero-length write of a buffer starting with `'1'` leave the same
world, with the LED on, and return 3 and 0. -/
theorem write_ignores_count_witness :
    3 < 2 ^ 63 ∧
    copy_from_user ('1' :: ['\n', '\n']) = (0, '1') ∧
    (driver_write readyWorld ('1' :: []) 0 0).2
      = (driver_write readyWorld ('1' :: ['\n', '\n']) 3 0).2 ∧
    (driver_write readyWorld ('1' :: ['\n', '\n']) 3 0).2.st.led_status = LED_ON ∧
    (driver_write readyWorld ('1' :: ['\n', '\n']) 3 0).1 = ((3 : Nat) : Int) ∧
    (driver_write readyWorld ('1' :: ['\n', '\n']) 0 0).1 = 0 ∧
    (driver_write readyWorld ('1' :: ['\n', '\n']) 0 0).2.st.led_status = LED_ON :=
  have h := write_ignores_count readyWorld '1' ['\n', '\n'] 3 0
  ⟨by decide, h.1, h.2.1 0 0 [], h.2.2.1, h.2.2.2.1 (by decide), h.2.2.2.2.1, h.2.2.2.2.2⟩

/-! ## Module exit -/

/-- C6: from every prior world (LED on or off), the calls made by `exitmodule`
are `gpio_set_value (GPIO_PIN, 0)`, then `gpio_free`, `cdev_del`,
`device_destroy`, `class_destroy` and `unregister_chrdev_region`: the line is
set to level 0 before it is freed, and the resources are released in exactly
the reverse of the order in which a run of `initmodule` that returned `0`
acquired them (region, class, node, cdev, pin). -/
theorem exit_reverses_init (w : World) (env : InitEnv) (w0 : World)
    (hinit : (initmodule env w0).1 = 0) :
    (exitmodule w).trace = w.trace ++
      [.gpio_set_value GPIO_PIN 0, .gpio_free GPIO_PIN, .cdev_del,
       .device_destroy w.st.my_gpio_class w.st.my_gpio_dev,
       .class_destroy w.st.my_gpio_class,
       .unregister_chrdev_region w.st.my_gpio_dev 1] ∧
    acquiredBy ((initmodule env w0).2.trace.drop w0.trace.length)
      = [.region, .cls, .node, .cdev, .pin] ∧
    releasedBy ((exitmodule w).trace.drop w.trace.length)
      = [.pin, .cdev, .node, .cls, .region] ∧
    releasedBy ((exitmodule w).trace.drop w.trace.length)
      = (acquiredBy ((initmodule env w0).2.trace.drop w0.trace.length)).reverse := by
  have he : (exitmodule w).trace = w.trace ++
      [.gpio_set_value GPIO_PIN 0, .gpio_free GPIO_PIN, .cdev_del,
       .device_destroy w.st.my_gpio_class w.st.my_gpio_dev,
       .class_destroy w.st.my_gpio_class,
       .unregister_chrdev_region w.st.my_gpio_dev 1] := by
    simp [exitmodule, World.call]
  have ha : acquiredBy ((initmodule env w0).2.trace.drop w0.trace.length)
      = [.region, .cls, .node, .cdev, .pin] := by
    rw [(initmodule_zero env w0 hinit).2]
    simp [initDone, acquiredBy, KCall.acquires]
  have hr : releasedBy ((exitmodule w).trace.drop w.trace.length)
      = [.pin, .cdev, .node, .cls, .region] := by
    rw [he]
    simp [releasedBy, KCall.releases]
  exact ⟨he, ha, hr, by rw [hr, ha]; rfl⟩

/-- C6 at a concrete run: module load with `okEnv`, LED switched on, module exit. -/
theorem exit_reverses_init_witness :
    (initmodule okEnv World.boot).1 = 0 ∧
    (exitmodule litWorld).trace = litWorld.trace ++
      [.gpio_set_value GPIO_PIN 0, .gpio_free GPIO_PIN, .cdev_del,
       .device_destroy litWorld.st.my_gpio_class litWorld.st.my_gpio_dev,
       .class_destroy litWorld.st.my_gpio_class,
       .unregister_chrdev_region litWorld.st.my_gpio_dev 1] ∧
    acquiredBy ((initmodule okEnv World.boot).2.trace.drop World.boot.trace.length)
      = [.region, .cls, .node, .cdev, .pin] ∧
    releasedBy ((exitmodule litWorld).trace.drop litWorld.trace.length)
      = [.pin, .cdev, .node, .cls, .region] ∧
    releasedBy ((exitmodule litWorld).trace.drop litWorld.trace.length)
      = (acquiredBy ((initmodule okEnv World.boot).2.trace.drop
          World.boot.trace.length)).reverse :=
  ⟨by decide, exit_reverses_init litWorld okEnv World.boot (by decide)⟩

/-- C7 as stated fails: in the world reached by a module load and a write of
`"1"`, `led_status` is `LED_ON`, and after `exitmodule` it still is `LED_ON`,
not `LED_OFF`. -/
theorem exit_keeps_status_on :
    Reachable litWorld ∧
    litWorld.st.led_status = LED_ON ∧
    (exitmodule litWorld).st.led_status = LED_ON ∧
    (exitmodule litWorld).st.led_status ≠ LED_OFF := by
  exact ⟨reachable_litWorld, by decide, by decide, by decide⟩

/-- C7, amended: from every prior world, `exitmodule` sets the GPIO line to level
0 by a direct `gpio_set_value (GPIO_PIN, 0)` as its first call and frees the
line with its second, and it leaves the module state as it was: `led_status`
after `exitmodule` equals `led_status` before, so it is `LED_OFF` exactly when
it was before. -/
theorem exit_forces_line_not_status (w : World) :
    ((exitmodule w).trace.drop w.trace.length).take 2
      = [.gpio_set_value GPIO_PIN 0, .gpio_free GPIO_PIN] ∧
    lastLevel (exitmodule w).trace = some 0 ∧
    (exitmodule w).st = w.st ∧
    (exitmodule w).st.led_status = w.st.led_status ∧
    ((exitmodule w).st.led_status = LED_OFF ↔ w.st.led_status = LED_OFF) := by
  have he : (exitmodule w).trace = w.trace ++
      [.gpio_set_value GPIO_PIN 0, .gpio_free GPIO_PIN, .cdev_del,
       .device_destroy w.st.my_gpio_class w.st.my_gpio_dev,
       .class_destroy w.st.my_gpio_class,
       .unregister_chrdev_region w.st.my_gpio_dev 1] := by
    simp [exitmodule, World.call]
  have hs : (exitmodule w).st = w.st := rfl
  refine ⟨?_, ?_, hs, by rw [hs], by rw [hs]⟩
  · rw [he]
    simp
  · rw [he]
    simp [lastLevel, List.foldl_append, KCall.level]

/-! ## The stored status and the line -/

/-- C9: in every world reachable from a successful `initmodule` by open, close,
read and write calls, `led_status` is the level most recently applied to the
GPIO line by `gpio_direction_output` or `gpio_set_value`; immediately after
`led_driver_setled level` the stored `led_status` is `level` and so is the
level of the line, for every level; and open, close and read leave `led_status`
unchanged. -/
theorem status_tracks_line (w : World) (h : Reachable w) :
    lastLevel w.trace = some w.st.led_status ∧
    (∀ level : Nat, (led_driver_setled level w).st.led_status = level ∧
      lastLevel (led_driver_setled level w).trace = some level) ∧
    (driver_open w).2.st.led_status = w.st.led_status ∧
    (driver_close w).2.st.led_status = w.st.led_status ∧
    (∀ (buffer : UserDst) (count : Nat) (offs : Int),
      ∃ r, driver_read w buffer count offs = some r ∧
        r.world.st.led_status = w.st.led_status) := by
  have hinv := reachable_inv w h
  refine ⟨hinv.2, ?_, rfl, rfl, ?_⟩
  · intro level
    refine ⟨rfl, ?_⟩
    rw [setled_trace, lastLevel_snoc]
    rfl
  · intro buffer count offs
    rcases hinv.1 with h0 | h1
    · have hm : led_state[w.st.led_status]? = some ['O', 'F', 'F', '\n'] := by
        rw [h0]
        rfl
      obtain ⟨r, hr, hw, _⟩ := driver_read_spec w _ buffer count offs hm (by decide)
      exact ⟨r, hr, by rw [hw]⟩
    · have hm : led_state[w.st.led_status]? = some ['O', 'N', '\n'] := by
        rw [h1]
        rfl
      obtain ⟨r, hr, hw, _⟩ := driver_read_spec w _ buffer count offs hm (by decide)
      exact ⟨r, hr, by rw [hw]⟩

/-- C9 at a concrete world: after module load and a write of `"1"`. -/
theorem status_tracks_line_witness :
    Reachable litWorld ∧
    lastLevel litWorld.trace = some litWorld.st.led_status ∧
    (∀ level : Nat, (led_driver_setled level litWorld).st.led_status = level ∧
      lastLevel (led_driver_setled level litWorld).trace = some level) ∧
    (driver_open litWorld).2.st.led_status = litWorld.st.led_status ∧
    (driver_close litWorld).2.st.led_status = litWorld.st.led_status ∧
    (∀ (buffer : UserDst) (count : Nat) (offs : Int),
      ∃ r, driver_read litWorld buffer count offs = some r ∧
        r.world.st.led_status = litWorld.st.led_status) :=
  ⟨reachable_litWorld, status_tracks_line litWorld reachable_litWorld⟩

end GpioDriver
